import Mathlib

/-!
Shallow embedding of the sensors-ncas-toolkit client library.

The Python source keeps attribute payloads as dictionaries mapping
string keys to JSON-ish values.  We model a dictionary as an
insertion-ordered association list of string keys and `PyVal` values,
typed failures (Python `raise`) as `Except DevError`, and the HTTP
layer abstractly: each operation returns the validation outcome
together with the list of HTTP requests it would issue, with the
response status codes supplied as parameters.
-/

/-- Model of the Python values that flow through attribute
dictionaries: strings, booleans, and an `other` constructor standing
for any value that is neither a string nor a boolean (lists, numbers,
None, ...). -/
inductive PyVal where
  | str (s : String)
  | bool (b : Bool)
  | other
  deriving DecidableEq

/-- A Python dict of attributes: an insertion-ordered association
list.  Python dicts preserve insertion order and have unique keys. -/
abbrev AttrMap : Type := List (String × PyVal)

/-- Lookup of a key in an attribute dict (Python `d[key]` returns the
value, here as `Option`). -/
def lookupAttr : AttrMap → String → Option PyVal
  | [], _ => none
  | (k, v) :: rest, key => if k = key then some v else lookupAttr rest key

/-- Python `key in d`. -/
def hasAttr (d : AttrMap) (key : String) : Bool :=
  (lookupAttr d key).isSome

/-- Python `d.keys()`, in insertion order. -/
def attrKeys (d : AttrMap) : List String :=
  d.map Prod.fst

/-- Typed model of the exceptions the library raises. -/
inductive DevError where
  /-- `KeyError` from `input_dict[key]` when the key is missing. -/
  | keyError (key : String)
  /-- `ValueError` for a string flag value outside true/1/false/0. -/
  | invalidBoolString (key : String)
  /-- `TypeError` for a non-boolean, non-string flag value. -/
  | invalidBoolType (key : String)
  /-- `ValueError`: multiple visibilities defined as true. -/
  | conflictingVisibility (trueKeys : List String)
  /-- `ValueError`: no visibilities defined as true. -/
  | noVisibilitySet
  /-- `ValueError` from the update allow-list check, listing every
  offending key. -/
  | invalidAttributes (names : List String)
  /-- `ValueError` from the add_device allow-list check, naming a
  single offending key. -/
  | invalidAttribute (name : String)
  /-- `ValueError`: missing required attributes. -/
  | missingRequired (names : List String)
  /-- `ValueError`: id and name do not match (tagged device/site). -/
  | identifierMismatch (entity : String)
  /-- `ValueError`: no entity with the given name. -/
  | notFound (name : String)
  /-- `ValueError`: neither id nor name supplied. -/
  | missingIdentifier
  /-- Plain `Exception` on a non-success HTTP status. -/
  | requestFailed (op : String) (status : Nat)
  deriving DecidableEq

deriving instance DecidableEq for Except

/-- A record of an HTTP request an operation would issue. -/
structure HttpRequest where
  method : String
  path : String
  body : AttrMap
  deriving DecidableEq

/- ### constants.py -/

def DEVICE_ATTRIBUTES : List String :=
  ["description", "short_name", "long_name", "serial_number",
   "manufacturer_uri", "manufacturer_name", "device_type_uri",
   "device_type_name", "status_uri", "status_name", "model",
   "inventory_number", "schema_version", "identifer_type", "website",
   "group_ids", "is_private", "is_internal", "is_public", "keywords",
   "country"]

def MIN_PRIVATE_DEVICE_ATTRIBUTES : List String :=
  ["short_name", "manufacturer_name", "is_private", "is_internal",
   "is_public"]

def MIN_INTERNAL_DEVICE_ATTRIBUTES : List String :=
  MIN_PRIVATE_DEVICE_ATTRIBUTES ++ ["group_ids"]

def MIN_PUBLIC_DEVICE_ATTRIBUTES : List String :=
  MIN_INTERNAL_DEVICE_ATTRIBUTES ++ []

def SITE_ATTRIBUTES : List String :=
  ["label", "geometry", "description", "epsg_code", "is_internal",
   "is_public", "group_ids", "street", "street_number", "city",
   "zip_code", "country", "building", "room", "site_type_uri",
   "site_type_name", "site_usage_uri", "site_usage_name", "elevation",
   "elevation_datum_name", "elevation_datum_uri", "website",
   "keywords"]

/- ### devices.py: _check_device_visibility -/

/-- Python str.lower, written as a character map so that it reduces
inside the kernel; extensionally this is String.toLower. -/
def strLower (s : String) : String := String.mk (s.data.map Char.toLower)

/-- Coercion of one visibility flag value, following the loop body of
`Devices._check_device_visibility`: a string is lowercased and must be
one of true/1 (true) or false/0 (false), any other string raises
`ValueError`; a non-string must be a boolean, else `TypeError`. -/
def coerceFlag (key : String) (v : PyVal) : Except DevError Bool :=
  match v with
  | PyVal.str s =>
      let sl := strLower s
      if sl = "true" ∨ sl = "1" then Except.ok true
      else if sl = "false" ∨ sl = "0" then Except.ok false
      else Except.error (DevError.invalidBoolString key)
  | PyVal.bool b => Except.ok b
  | PyVal.other => Except.error (DevError.invalidBoolType key)

/-- The fixed iteration order of the flag keys in
`_check_device_visibility`. -/
def visKeys : List String := ["is_public", "is_internal", "is_private"]

/-- The loop of `_check_device_visibility`: reads each flag key from
the dict (KeyError when missing), coerces it, and accumulates the keys
whose coerced value is true, in iteration order.  The first coercion
failure aborts the loop. -/
def collectTrueKeys (d : AttrMap) : List String → Except DevError (List String)
  | [] => Except.ok []
  | k :: ks =>
      match lookupAttr d k with
      | none => Except.error (DevError.keyError k)
      | some v =>
          match coerceFlag k v with
          | Except.error e => Except.error e
          | Except.ok b =>
              match collectTrueKeys d ks with
              | Except.error e => Except.error e
              | Except.ok rest => Except.ok (if b then k :: rest else rest)

/-- `Devices._check_device_visibility`: collect the true flags, then
fail on more than one (ConflictingVisibility, listing them all), fail
on zero (NoVisibilitySet), and otherwise return the single true
key. -/
def check_device_visibility (d : AttrMap) : Except DevError String :=
  match collectTrueKeys d visKeys with
  | Except.error e => Except.error e
  | Except.ok true_keys =>
      if true_keys.length > 1 then
        Except.error (DevError.conflictingVisibility true_keys)
      else if true_keys.length = 0 then
        Except.error DevError.noVisibilitySet
      else
        match true_keys with
        | k :: _ => Except.ok k
        | [] => Except.error DevError.noVisibilitySet

/- ### devices.py: add_device -/

/-- One step of the default-fill loop in `Devices.add_device`:
`if key not in attributes: attributes[key] = False`.  Assigning a
missing key appends it at the end of the dict. -/
def fillKey (d : AttrMap) (key : String) : AttrMap :=
  if hasAttr d key then d else d ++ [(key, PyVal.bool false)]

/-- The default-fill loop of `Devices.add_device`, iterating over
is_private, is_internal, is_public in that order.  It mutates the
dict supplied by the caller in place; here the mutated dict is the
returned value. -/
def fillVisibilityDefaults (d : AttrMap) : AttrMap :=
  ["is_private", "is_internal", "is_public"].foldl fillKey d

/-- The validation loop of `Devices.add_device` over the dict keys:
the first key outside DEVICE_ATTRIBUTES raises immediately (naming
only that key); keys belonging to `min_reqs` are accumulated in
order. -/
def collectGivenMinReqs (min_reqs : List String) : List String → Except DevError (List String)
  | [] => Except.ok []
  | a :: rest =>
      if DEVICE_ATTRIBUTES.contains a = false then
        Except.error (DevError.invalidAttribute a)
      else
        match collectGivenMinReqs min_reqs rest with
        | Except.error e => Except.error e
        | Except.ok g =>
            Except.ok (if min_reqs.contains a then a :: g else g)

/-- `Devices.add_device` after the default fill: classify visibility,
pick the minimum-required set, run the allow-list and
minimum-required checks, then issue the POST.  The `postStatus`
parameter stands for the HTTP status the backend would answer; the
second component lists the requests actually issued.  The missing
list models the Python `list(set(min_reqs) - set(given_min_reqs))`:
the required names with no given counterpart (each once, since the
minimum sets are duplicate-free; Python set order is unspecified). -/
def add_device_core (postStatus : Nat) (attributes : AttrMap) :
    Except DevError Unit × List HttpRequest :=
  match check_device_visibility attributes with
  | Except.error e => (Except.error e, [])
  | Except.ok vis =>
      let min_reqs :=
        if vis = "is_private" then MIN_PRIVATE_DEVICE_ATTRIBUTES
        else if vis = "is_internal" then MIN_INTERNAL_DEVICE_ATTRIBUTES
        else MIN_PUBLIC_DEVICE_ATTRIBUTES
      match collectGivenMinReqs min_reqs (attrKeys attributes) with
      | Except.error e => (Except.error e, [])
      | Except.ok given =>
          if min_reqs.length ≠ given.length then
            (Except.error (DevError.missingRequired
                (min_reqs.filter (fun a => !(given.contains a)))), [])
          else
            let req : HttpRequest :=
              { method := "POST", path := "/devices", body := attributes }
            if postStatus ≠ 201 then
              (Except.error (DevError.requestFailed "add new device" postStatus), [req])
            else (Except.ok (), [req])

/-- `Devices.add_device`: first the default fill is applied in place
to the dict passed by the caller, then the checks and the POST run on
the filled dict.  The middle component is the dict as the caller
observes it after the call, whether the call returned or raised. -/
def add_device (postStatus : Nat) (attributes0 : AttrMap) :
    Except DevError Unit × AttrMap × List HttpRequest :=
  ((add_device_core postStatus (fillVisibilityDefaults attributes0)).1,
   fillVisibilityDefaults attributes0,
   (add_device_core postStatus (fillVisibilityDefaults attributes0)).2)

/- ### devices.py / sites.py: updates -/

/-- `Devices.update_device_by_id`: collect every key outside
DEVICE_ATTRIBUTES; if any, raise listing them all and issue no
request; otherwise issue the PATCH and check its status. -/
def update_device_by_id (patchStatus : Nat) (device_id : String)
    (attributes : AttrMap) : Except DevError Unit × List HttpRequest :=
  let invalid_attrs := (attrKeys attributes).filter
    (fun a => !(DEVICE_ATTRIBUTES.contains a))
  if invalid_attrs.length > 0 then
    (Except.error (DevError.invalidAttributes invalid_attrs), [])
  else
    let req : HttpRequest :=
      { method := "PATCH", path := "/devices/" ++ device_id, body := attributes }
    if patchStatus ≠ 200 then
      (Except.error (DevError.requestFailed "update device" patchStatus), [req])
    else (Except.ok (), [req])

/-- `Sites.update_site_by_id`: same shape as the device update, with
the SITE_ATTRIBUTES allow-list. -/
def update_site_by_id (patchStatus : Nat) (site_id : String)
    (attributes : AttrMap) : Except DevError Unit × List HttpRequest :=
  let invalid_attrs := (attrKeys attributes).filter
    (fun a => !(SITE_ATTRIBUTES.contains a))
  if invalid_attrs.length > 0 then
    (Except.error (DevError.invalidAttributes invalid_attrs), [])
  else
    let req : HttpRequest :=
      { method := "PATCH", path := "/sites/" ++ site_id, body := attributes }
    if patchStatus ≠ 200 then
      (Except.error (DevError.requestFailed "update site" patchStatus), [req])
    else (Except.ok (), [req])

/- ### devices.py / sites.py: lookups with id and name -/

/-- The fields of a device record the lookup helpers read. -/
structure Device where
  id : String
  short_name : String
  deriving DecidableEq

/-- The fields of a site record the lookup helpers read. -/
structure Site where
  id : String
  label : String
  deriving DecidableEq

/-- `Devices.get_device_by_id`: a GET on devices/{id}; the backend is
modelled as a partial map from id to record, `none` standing for a
non-200 response. -/
def get_device_by_id (backend : String → Option Device) (i : String) :
    Except DevError Device :=
  match backend i with
  | some d => Except.ok d
  | none => Except.error (DevError.requestFailed "get device" 404)

/-- `Devices.get_device_by_name`: linear scan of the snapshot for an
exact short_name match, first hit returned, ValueError when none. -/
def get_device_by_name (snapshot : List Device) (name : String) :
    Except DevError Device :=
  match snapshot.find? (fun d => d.short_name = name) with
  | some d => Except.ok d
  | none => Except.error (DevError.notFound name)

/-- `Devices.get_device_properties`: when both id and name are given,
fetch by id and require the short_name to equal the given name, else
ValueError; when neither is given, ValueError; when a name is given,
re-resolve the id by name.  The returned string is the device id
placed in the device-properties filter query. -/
def get_device_properties (backend : String → Option Device)
    (snapshot : List Device) (device_id device_name : Option String) :
    Except DevError String :=
  match device_id, device_name with
  | some i, some n =>
      (match get_device_by_id backend i with
       | Except.error e => Except.error e
       | Except.ok d =>
           if d.short_name ≠ n then
             Except.error (DevError.identifierMismatch "device")
           else
             match get_device_by_name snapshot n with
             | Except.error e => Except.error e
             | Except.ok d2 => Except.ok d2.id)
  | none, none => Except.error DevError.missingIdentifier
  | some i, none => Except.ok i
  | none, some n =>
      match get_device_by_name snapshot n with
      | Except.error e => Except.error e
      | Except.ok d2 => Except.ok d2.id

/-- `Sites.get_site_by_id`, modelled like the device counterpart. -/
def get_site_by_id (backend : String → Option Site) (i : String) :
    Except DevError Site :=
  match backend i with
  | some s => Except.ok s
  | none => Except.error (DevError.requestFailed "get site" 404)

/-- `Sites.get_site_by_name`: exact label match over the snapshot. -/
def get_site_by_name (snapshot : List Site) (name : String) :
    Except DevError Site :=
  match snapshot.find? (fun s => s.label = name) with
  | some s => Except.ok s
  | none => Except.error (DevError.notFound name)

/-- `Sites.get_site_configurations`: when both id and name are given,
fetch by id and require the label to equal the given name, else
ValueError.  The returned string is the site id used in the
configurations path. -/
def get_site_configurations (backend : String → Option Site)
    (snapshot : List Site) (site_id site_name : Option String) :
    Except DevError String :=
  match site_id, site_name with
  | some i, some n =>
      (match get_site_by_id backend i with
       | Except.error e => Except.error e
       | Except.ok s =>
           if s.label ≠ n then
             Except.error (DevError.identifierMismatch "site")
           else
             match get_site_by_name snapshot n with
             | Except.error e => Except.error e
             | Except.ok s2 => Except.ok s2.id)
  | none, none => Except.error DevError.missingIdentifier
  | some i, none => Except.ok i
  | none, some n =>
      match get_site_by_name snapshot n with
      | Except.error e => Except.error e
      | Except.ok s2 => Except.ok s2.id

/- ### core.py -/

/-- Python `api_key or os.getenv("SENSORS_API_KEY")`: an explicit
non-empty key wins, the empty string and None both fall through to
the environment value. -/
def resolveKey (api_key env_key : Option String) : Option String :=
  match api_key with
  | some s => if s = "" then env_key else some s
  | none => env_key

/-- The headers dict built in `CoreApi.__init__` from a resolved key:
the two content-negotiation entries plus X-APIKEY.  The X-APIKEY value
is `none` when no key is configured (Python None). -/
def mkHeaders (k : Option String) : List (String × Option String) :=
  [("accept", some "application/vnd.api+json"),
   ("X-APIKEY", k),
   ("Content-Type", some "application/vnd.api+json")]

/-- The state of a `CoreApi` object. -/
structure CoreApi where
  api_key : Option String
  base_url : String
  headers : List (String × Option String)
  deriving DecidableEq

/-- `CoreApi.__init__`: resolve the key against the environment, fix
the base url, build the headers from the resolved key. -/
def CoreApi.init (api_key env_key : Option String) : CoreApi :=
  { api_key := resolveKey api_key env_key,
    base_url := "https://pid-sms-tst.bodc.uk/backend/api/v1",
    headers := mkHeaders (resolveKey api_key env_key) }

/-- `CoreApi.add_api_key`: assigns `self.api_key` only; the headers
dict is left untouched. -/
def CoreApi.add_api_key (c : CoreApi) (api_key : String) : CoreApi :=
  { c with api_key := some api_key }

/- ### user.py -/

/-- A permission group record, reduced to the id field the filter
reads. -/
structure PermGroup where
  id : String
  deriving DecidableEq

/-- The membership list found at data.attributes.member of the
user-info response. -/
structure UserInfoData where
  member : List String
  deriving DecidableEq

/-- The filter loop of `UserInfo.get_user_groups`: the groups whose id
occurs in the membership list, in the order the backend listed
them. -/
def userGroupList (member : List String) (all_perm_groups : List PermGroup) :
    List PermGroup :=
  all_perm_groups.filter (fun g => member.contains g.id)

/-- `UserInfo.get_user_groups`: with no cached user info and no API
key, print a warning (second component true) and return None; with no
cached user info but a key, refetch the user info (its member list
supplied as `fetched`) and filter; with cached info, filter.  The
all-groups response is supplied as `all_perm_groups`. -/
def get_user_groups (api_key : Option String)
    (user_info : Option UserInfoData) (fetched : UserInfoData)
    (all_perm_groups : List PermGroup) :
    Option (List PermGroup) × Bool :=
  match user_info with
  | none =>
      match api_key with
      | none => (none, true)
      | some _ => (some (userGroupList fetched.member all_perm_groups), false)
  | some info => (some (userGroupList info.member all_perm_groups), false)

/- ### Helper lemmas on attribute dicts -/

theorem lookupAttr_append (l1 l2 : AttrMap) (k : String) :
    lookupAttr (l1 ++ l2) k =
      (match lookupAttr l1 k with
       | some v => some v
       | none => lookupAttr l2 k) := by
  induction l1 with
  | nil => simp [lookupAttr]
  | cons p rest ih =>
      obtain ⟨k0, v0⟩ := p
      by_cases h : k0 = k
      · simp [lookupAttr, h]
      · simp [lookupAttr, h, ih]

theorem lookupAttr_none_of_hasAttr_false (d : AttrMap) (k : String)
    (h : hasAttr d k = false) : lookupAttr d k = none := by
  unfold hasAttr at h
  cases hl : lookupAttr d k with
  | none => rfl
  | some v => rw [hl] at h; simp at h

theorem lookupAttr_append_right (l1 l2 : AttrMap) (k : String)
    (h : hasAttr l1 k = false) :
    lookupAttr (l1 ++ l2) k = lookupAttr l2 k := by
  rw [lookupAttr_append, lookupAttr_none_of_hasAttr_false l1 k h]

theorem lookupAttr_append_left (l1 l2 : AttrMap) (k : String)
    (h : hasAttr l1 k = true) :
    lookupAttr (l1 ++ l2) k = lookupAttr l1 k := by
  rw [lookupAttr_append]
  unfold hasAttr at h
  cases hl : lookupAttr l1 k with
  | none => rw [hl] at h; simp at h
  | some v => rfl

theorem lookupAttr_fillKey_other (d : AttrMap) (k other : String)
    (hne : other ≠ k) : lookupAttr (fillKey d other) k = lookupAttr d k := by
  unfold fillKey
  by_cases h : hasAttr d other
  · simp [h]
  · simp only [h, Bool.false_eq_true, if_false]
    rw [lookupAttr_append]
    cases hl : lookupAttr d k with
    | some v => rfl
    | none => simp [lookupAttr, hne]

theorem hasAttr_fillKey_other (d : AttrMap) (k other : String)
    (hne : other ≠ k) : hasAttr (fillKey d other) k = hasAttr d k := by
  unfold hasAttr
  rw [lookupAttr_fillKey_other d k other hne]

theorem fillKey_absent (d : AttrMap) (k : String) (h : hasAttr d k = false) :
    fillKey d k = d ++ [(k, PyVal.bool false)] := by
  simp [fillKey, h]

/-- The default fill unfolded to its three steps. -/
theorem fillVisibilityDefaults_eq (d : AttrMap) :
    fillVisibilityDefaults d =
      fillKey (fillKey (fillKey d "is_private") "is_internal") "is_public" := rfl

/- ### C1 -/

/-- The list of flag keys whose coerced value is true, in the fixed
iteration order is_public, is_internal, is_private. -/
def trueKeysOf (bp bi br : Bool) : List String :=
  (if bp then ["is_public"] else []) ++
  (if bi then ["is_internal"] else []) ++
  (if br then ["is_private"] else [])

/-- C1: over any dict carrying the three visibility flags with values
that coerce to booleans bp (is_public), bi (is_internal) and br
(is_private): exactly one true flag classifies to that flag and does
not fail; zero true flags fail with NoVisibilitySet; two or more true
flags fail with ConflictingVisibility reporting exactly the set of
true keys. -/
theorem c1_check_device_visibility_classifies (d : AttrMap)
    (vp vi vr : PyVal) (bp bi br : Bool)
    (hp : lookupAttr d "is_public" = some vp)
    (hi : lookupAttr d "is_internal" = some vi)
    (hr : lookupAttr d "is_private" = some vr)
    (cp : coerceFlag "is_public" vp = Except.ok bp)
    (ci : coerceFlag "is_internal" vi = Except.ok bi)
    (cr : coerceFlag "is_private" vr = Except.ok br) :
    (bp = true → bi = false → br = false →
        check_device_visibility d = Except.ok "is_public") ∧
    (bp = false → bi = true → br = false →
        check_device_visibility d = Except.ok "is_internal") ∧
    (bp = false → bi = false → br = true →
        check_device_visibility d = Except.ok "is_private") ∧
    (bp = false → bi = false → br = false →
        check_device_visibility d = Except.error DevError.noVisibilitySet) ∧
    (2 ≤ bp.toNat + bi.toNat + br.toNat →
        check_device_visibility d =
          Except.error (DevError.conflictingVisibility (trueKeysOf bp bi br)) ∧
        (∀ k : String, k ∈ trueKeysOf bp bi br ↔
          ((k = "is_public" ∧ bp = true) ∨ (k = "is_internal" ∧ bi = true) ∨
           (k = "is_private" ∧ br = true)))) := by
  have hc : collectTrueKeys d visKeys = Except.ok (trueKeysOf bp bi br) := by
    cases bp <;> cases bi <;> cases br <;>
      simp [visKeys, collectTrueKeys, hp, hi, hr, cp, ci, cr, trueKeysOf]
  cases bp <;> cases bi <;> cases br <;>
    simp [check_device_visibility, hc, trueKeysOf]

/-- Witness for C1 at the concrete dict of the spec scenario:
is_private "TRUE", is_internal "0", is_public False classifies to
is_private. -/
theorem c1_witness :
    check_device_visibility
      [("is_private", PyVal.str "TRUE"), ("is_internal", PyVal.str "0"),
       ("is_public", PyVal.bool false)] = Except.ok "is_private" :=
  (c1_check_device_visibility_classifies
      [("is_private", PyVal.str "TRUE"), ("is_internal", PyVal.str "0"),
       ("is_public", PyVal.bool false)]
      (PyVal.bool false) (PyVal.str "0") (PyVal.str "TRUE")
      false false true
      rfl (by decide) (by decide) (by decide) (by decide)
      (by decide)).2.2.1 rfl rfl rfl

/- ### C6 -/

/-- C6: the minimum-required sets respect the superset law: every
name required for the private class is required for the internal
class, and every name required for the internal class is required for
the public class. -/
theorem c6_min_required_superset_law :
    (MIN_PRIVATE_DEVICE_ATTRIBUTES.all
        (fun a => MIN_INTERNAL_DEVICE_ATTRIBUTES.contains a) = true) ∧
    (MIN_INTERNAL_DEVICE_ATTRIBUTES.all
        (fun a => MIN_PUBLIC_DEVICE_ATTRIBUTES.contains a) = true) := by
  decide

/- ### C2 -/

/-- The attribute dict of the C2 scenario. -/
def c2Input : AttrMap :=
  [("short_name", PyVal.str "X"), ("manufacturer_name", PyVal.str "Y"),
   ("is_public", PyVal.bool true)]

/-- C2: creating a device with short_name, manufacturer_name and
is_public true only fails with MissingRequiredAttributes listing
exactly group_ids: the filled dict classifies as public, the public
minimum set equals the internal one with nothing extra, group_ids is
required there, and group_ids is the only required name absent from
the filled dict. -/
theorem c2_add_device_missing_group_ids :
    (add_device 201 c2Input).1 =
        Except.error (DevError.missingRequired ["group_ids"]) ∧
    (add_device 201 c2Input).2.2 = [] ∧
    check_device_visibility (fillVisibilityDefaults c2Input) =
        Except.ok "is_public" ∧
    MIN_PUBLIC_DEVICE_ATTRIBUTES = MIN_INTERNAL_DEVICE_ATTRIBUTES ∧
    "group_ids" ∈ MIN_INTERNAL_DEVICE_ATTRIBUTES ∧
    MIN_PUBLIC_DEVICE_ATTRIBUTES.filter
        (fun a => !(hasAttr (fillVisibilityDefaults c2Input) a)) =
      ["group_ids"] := by
  decide

/- ### C4 -/

/-- C4 (code bug): at construction the headers are the fixed function
of the resolved key, for an explicit key and for the environment
fallback alike; but after supplying the key post-construction with
add_api_key, the headers still carry the construction-time X-APIKEY
value (here none) while api_key holds the new key, so the headers are
not a function of the current api_key. -/
theorem c4_headers_stale_after_add_api_key :
    (CoreApi.init (some "K1") none).headers =
        mkHeaders (CoreApi.init (some "K1") none).api_key ∧
    (CoreApi.init none (some "ENVK")).headers =
        mkHeaders (CoreApi.init none (some "ENVK")).api_key ∧
    (CoreApi.init none none).headers =
        mkHeaders (CoreApi.init none none).api_key ∧
    ((CoreApi.init none none).add_api_key "NEW-KEY").api_key =
        some "NEW-KEY" ∧
    ((CoreApi.init none none).add_api_key "NEW-KEY").headers ≠
        mkHeaders (((CoreApi.init none none).add_api_key "NEW-KEY").api_key) ∧
    ((CoreApi.init none none).add_api_key "NEW-KEY").headers =
        mkHeaders none := by
  decide

/- ### C5 -/

/-- When none of the three visibility flags is present, the default
fill appends all three bound to false, in fill order. -/
theorem fillVisibilityDefaults_of_absent (d : AttrMap)
    (h1 : hasAttr d "is_private" = false)
    (h2 : hasAttr d "is_internal" = false)
    (h3 : hasAttr d "is_public" = false) :
    fillVisibilityDefaults d =
      d ++ [("is_private", PyVal.bool false),
            ("is_internal", PyVal.bool false),
            ("is_public", PyVal.bool false)] := by
  rw [fillVisibilityDefaults_eq, fillKey_absent d _ h1]
  have h2' : hasAttr (d ++ [("is_private", PyVal.bool false)])
      "is_internal" = false := by
    unfold hasAttr
    rw [lookupAttr_append_right _ _ _ h2]
    decide
  rw [fillKey_absent _ _ h2']
  simp only [List.append_assoc, List.singleton_append, List.cons_append,
    List.nil_append]
  have h3' : hasAttr (d ++ [("is_private", PyVal.bool false),
      ("is_internal", PyVal.bool false)]) "is_public" = false := by
    unfold hasAttr
    rw [lookupAttr_append_right _ _ _ h3]
    decide
  rw [fillKey_absent _ _ h3']
  simp only [List.append_assoc, List.singleton_append, List.cons_append,
    List.nil_append]

/-- C5: when the caller supplies none of the three visibility flags,
add_device sets all three to false in the callers dict before
classification, then deterministically fails with NoVisibilitySet,
and no POST request is issued. -/
theorem c5_add_device_omitted_flags_fails (attrs : AttrMap) (st : Nat)
    (h1 : hasAttr attrs "is_private" = false)
    (h2 : hasAttr attrs "is_internal" = false)
    (h3 : hasAttr attrs "is_public" = false) :
    (add_device st attrs).1 = Except.error DevError.noVisibilitySet ∧
    (add_device st attrs).2.2 = [] ∧
    (add_device st attrs).2.1 =
      attrs ++ [("is_private", PyVal.bool false),
                ("is_internal", PyVal.bool false),
                ("is_public", PyVal.bool false)] := by
  have hfill := fillVisibilityDefaults_of_absent attrs h1 h2 h3
  have lp : lookupAttr (fillVisibilityDefaults attrs) "is_public" =
      some (PyVal.bool false) := by
    rw [hfill, lookupAttr_append_right _ _ _ h3]; decide
  have li : lookupAttr (fillVisibilityDefaults attrs) "is_internal" =
      some (PyVal.bool false) := by
    rw [hfill, lookupAttr_append_right _ _ _ h2]; decide
  have lr : lookupAttr (fillVisibilityDefaults attrs) "is_private" =
      some (PyVal.bool false) := by
    rw [hfill, lookupAttr_append_right _ _ _ h1]; decide
  have hvis : check_device_visibility (fillVisibilityDefaults attrs) =
      Except.error DevError.noVisibilitySet := by
    simp [check_device_visibility, collectTrueKeys, visKeys, lp, li, lr,
      coerceFlag]
  refine ⟨?_, ?_, hfill⟩ <;>
    simp [add_device, add_device_core, hvis]

/-- Witness for C5: a dict holding only short_name. -/
theorem c5_witness :
    (add_device 201 [("short_name", PyVal.str "X")]).1 =
      Except.error DevError.noVisibilitySet :=
  (c5_add_device_omitted_flags_fails [("short_name", PyVal.str "X")] 201
    (by decide) (by decide) (by decide)).1

/- ### C10 -/

/-- C10: add_device mutates the dict the caller passed: whether the
call returns or raises, the dict the caller observes afterwards is
the default-filled one, and every visibility flag that was missing is
now bound to false in it. -/
theorem c10_add_device_mutates_caller_dict (attrs : AttrMap) (st : Nat)
    (k : String)
    (hk : k = "is_private" ∨ k = "is_internal" ∨ k = "is_public")
    (h : hasAttr attrs k = false) :
    lookupAttr (add_device st attrs).2.1 k = some (PyVal.bool false) ∧
    (add_device st attrs).2.1 = fillVisibilityDefaults attrs := by
  have hsame : (add_device st attrs).2.1 = fillVisibilityDefaults attrs := rfl
  refine ⟨?_, hsame⟩
  rw [hsame, fillVisibilityDefaults_eq]
  rcases hk with hk | hk | hk <;> subst hk
  · rw [lookupAttr_fillKey_other _ _ "is_public" (by decide),
        lookupAttr_fillKey_other _ _ "is_internal" (by decide),
        fillKey_absent _ _ h, lookupAttr_append_right _ _ _ h]
    decide
  · rw [lookupAttr_fillKey_other _ _ "is_public" (by decide)]
    have h' : hasAttr (fillKey attrs "is_private") "is_internal" = false := by
      rw [hasAttr_fillKey_other _ _ "is_private" (by decide)]; exact h
    rw [fillKey_absent _ _ h', lookupAttr_append_right _ _ _ h']
    decide
  · have h' : hasAttr (fillKey attrs "is_private") "is_public" = false := by
      rw [hasAttr_fillKey_other _ _ "is_private" (by decide)]; exact h
    have h'' : hasAttr (fillKey (fillKey attrs "is_private") "is_internal")
        "is_public" = false := by
      rw [hasAttr_fillKey_other _ _ "is_internal" (by decide)]; exact h'
    rw [fillKey_absent _ _ h'', lookupAttr_append_right _ _ _ h'']
    decide

/-- Witness for C10: a dict without is_public gains is_public bound
to false. -/
theorem c10_witness :
    lookupAttr (add_device 201 [("short_name", PyVal.str "X")]).2.1
        "is_public" = some (PyVal.bool false) ∧
    (add_device 201 [("short_name", PyVal.str "X")]).2.1 =
        fillVisibilityDefaults [("short_name", PyVal.str "X")] :=
  c10_add_device_mutates_caller_dict [("short_name", PyVal.str "X")] 201
    "is_public" (Or.inr (Or.inr rfl)) (by decide)

/- ### Allow-list helper lemmas -/

/-- The device update on a dict with an offending key: the error
lists every key outside the allow-list, and no request is issued. -/
theorem update_device_by_id_invalid (st : Nat) (did : String)
    (attrs : AttrMap) (k : String) (hk : k ∈ attrKeys attrs)
    (hbad : DEVICE_ATTRIBUTES.contains k = false) :
    update_device_by_id st did attrs =
      (Except.error (DevError.invalidAttributes
        ((attrKeys attrs).filter (fun a => !(DEVICE_ATTRIBUTES.contains a)))),
       []) := by
  have hmem : k ∈ (attrKeys attrs).filter
      (fun a => !(DEVICE_ATTRIBUTES.contains a)) :=
    List.mem_filter.mpr ⟨hk, by rw [hbad]; rfl⟩
  have hlen : ((attrKeys attrs).filter
      (fun a => !(DEVICE_ATTRIBUTES.contains a))).length > 0 :=
    List.length_pos.mpr (List.ne_nil_of_mem hmem)
  simp only [update_device_by_id]
  rw [if_pos hlen]

/-- The site update counterpart of the previous lemma. -/
theorem update_site_by_id_invalid (st : Nat) (sid : String)
    (attrs : AttrMap) (k : String) (hk : k ∈ attrKeys attrs)
    (hbad : SITE_ATTRIBUTES.contains k = false) :
    update_site_by_id st sid attrs =
      (Except.error (DevError.invalidAttributes
        ((attrKeys attrs).filter (fun a => !(SITE_ATTRIBUTES.contains a)))),
       []) := by
  have hmem : k ∈ (attrKeys attrs).filter
      (fun a => !(SITE_ATTRIBUTES.contains a)) :=
    List.mem_filter.mpr ⟨hk, by rw [hbad]; rfl⟩
  have hlen : ((attrKeys attrs).filter
      (fun a => !(SITE_ATTRIBUTES.contains a))).length > 0 :=
    List.length_pos.mpr (List.ne_nil_of_mem hmem)
  simp only [update_site_by_id]
  rw [if_pos hlen]

/-- The add_device validation loop raises at the first key outside
the allow-list, whatever the minimum-required set is. -/
theorem collectGivenMinReqs_first_invalid (mr ks : List String) (k : String)
    (h : ks.find? (fun a => !(DEVICE_ATTRIBUTES.contains a)) = some k) :
    collectGivenMinReqs mr ks = Except.error (DevError.invalidAttribute k) := by
  induction ks with
  | nil => simp [List.find?] at h
  | cons a rest ih =>
      by_cases hc : DEVICE_ATTRIBUTES.contains a = true
      · rw [List.find?_cons_of_neg _ (by rw [hc]; decide)] at h
        simp only [collectGivenMinReqs]
        rw [if_neg (by rw [hc]; decide), ih h]
      · have hc' : DEVICE_ATTRIBUTES.contains a = false := by
          cases hb : DEVICE_ATTRIBUTES.contains a
          · rfl
          · exact absurd hb hc
        rw [List.find?_cons_of_pos _ (by rw [hc']; rfl)] at h
        have hak : a = k := by injection h
        subst hak
        simp only [collectGivenMinReqs]
        rw [if_pos hc']

/- ### C8 -/

/-- C8: an update whose dict holds a key outside the allow-list fails
with InvalidAttribute (listing every such key) and issues no request
at all: validation strictly precedes the PATCH, so a validation
failure has no backend effect. -/
theorem c8_update_fails_before_request (st : Nat) (did : String)
    (attrs : AttrMap) (k : String) (hk : k ∈ attrKeys attrs)
    (hbad : DEVICE_ATTRIBUTES.contains k = false) :
    (update_device_by_id st did attrs).1 =
      Except.error (DevError.invalidAttributes
        ((attrKeys attrs).filter (fun a => !(DEVICE_ATTRIBUTES.contains a)))) ∧
    (update_device_by_id st did attrs).2 = [] := by
  rw [update_device_by_id_invalid st did attrs k hk hbad]
  exact ⟨rfl, rfl⟩

/-- Witness for C8 at the spec scenario key not_a_real_attr. -/
theorem c8_witness :
    (update_device_by_id 200 "42" [("not_a_real_attr", PyVal.str "v")]).1 =
      Except.error (DevError.invalidAttributes
        ((attrKeys [("not_a_real_attr", PyVal.str "v")]).filter
          (fun a => !(DEVICE_ATTRIBUTES.contains a)))) ∧
    (update_device_by_id 200 "42" [("not_a_real_attr", PyVal.str "v")]).2 =
      [] :=
  c8_update_fails_before_request 200 "42"
    [("not_a_real_attr", PyVal.str "v")] "not_a_real_attr"
    (by decide) (by decide)

/- ### C3 -/

/-- The keys an allow-list failure reports. -/
def reportedInvalid : DevError → List String
  | DevError.invalidAttributes names => names
  | DevError.invalidAttribute name => [name]
  | _ => []

/-- A creation dict with two keys outside the allow-list. -/
def c3BadInput : AttrMap :=
  [("bad_one", PyVal.other), ("bad_two", PyVal.other),
   ("is_public", PyVal.bool true)]

/-- Counterexample to C3: on a creation dict whose offending keys are
bad_one and bad_two, add_device raises naming only bad_one, so the
creation path does not report every offending key. -/
theorem c3_counterexample_add_device_first_only :
    (add_device 201 c3BadInput).1 =
      Except.error (DevError.invalidAttribute "bad_one") ∧
    "bad_two" ∈ attrKeys c3BadInput ∧
    DEVICE_ATTRIBUTES.contains "bad_two" = false ∧
    "bad_two" ∉ reportedInvalid (DevError.invalidAttribute "bad_one") := by
  decide

/-- C3 amended: the update operations report every key outside the
allow-list, while add_device fails with InvalidAttribute naming only
the first offending key in dict order (once visibility
classification has succeeded). -/
theorem c3_amended_allowlist_reporting
    (std sts stc : Nat) (did sid : String)
    (dattrs sattrs cattrs : AttrMap) (kd ks0 kc vis : String)
    (hd1 : kd ∈ attrKeys dattrs)
    (hd2 : DEVICE_ATTRIBUTES.contains kd = false)
    (hs1 : ks0 ∈ attrKeys sattrs)
    (hs2 : SITE_ATTRIBUTES.contains ks0 = false)
    (hv : check_device_visibility (fillVisibilityDefaults cattrs) =
        Except.ok vis)
    (hfind : (attrKeys (fillVisibilityDefaults cattrs)).find?
        (fun a => !(DEVICE_ATTRIBUTES.contains a)) = some kc) :
    ((update_device_by_id std did dattrs).1 =
        Except.error (DevError.invalidAttributes
          ((attrKeys dattrs).filter
            (fun a => !(DEVICE_ATTRIBUTES.contains a)))) ∧
      (∀ a, a ∈ (attrKeys dattrs).filter
            (fun a => !(DEVICE_ATTRIBUTES.contains a)) ↔
          (a ∈ attrKeys dattrs ∧ DEVICE_ATTRIBUTES.contains a = false))) ∧
    ((update_site_by_id sts sid sattrs).1 =
        Except.error (DevError.invalidAttributes
          ((attrKeys sattrs).filter
            (fun a => !(SITE_ATTRIBUTES.contains a)))) ∧
      (∀ a, a ∈ (attrKeys sattrs).filter
            (fun a => !(SITE_ATTRIBUTES.contains a)) ↔
          (a ∈ attrKeys sattrs ∧ SITE_ATTRIBUTES.contains a = false))) ∧
    (add_device stc cattrs).1 =
      Except.error (DevError.invalidAttribute kc) := by
  refine ⟨⟨?_, ?_⟩, ⟨?_, ?_⟩, ?_⟩
  · rw [update_device_by_id_invalid std did dattrs kd hd1 hd2]
  · intro a
    rw [List.mem_filter]
    constructor
    · rintro ⟨h1, h2⟩
      refine ⟨h1, ?_⟩
      cases hb : DEVICE_ATTRIBUTES.contains a
      · rfl
      · rw [hb] at h2; exact absurd h2 (by decide)
    · rintro ⟨h1, h2⟩
      exact ⟨h1, by rw [h2]; rfl⟩
  · rw [update_site_by_id_invalid sts sid sattrs ks0 hs1 hs2]
  · intro a
    rw [List.mem_filter]
    constructor
    · rintro ⟨h1, h2⟩
      refine ⟨h1, ?_⟩
      cases hb : SITE_ATTRIBUTES.contains a
      · rfl
      · rw [hb] at h2; exact absurd h2 (by decide)
    · rintro ⟨h1, h2⟩
      exact ⟨h1, by rw [h2]; rfl⟩
  · show (add_device_core stc (fillVisibilityDefaults cattrs)).1 =
      Except.error (DevError.invalidAttribute kc)
    simp only [add_device_core, hv]
    rw [collectGivenMinReqs_first_invalid _ _ _ hfind]

/-- Witness for C3 amended, at one-key dicts and the two-key creation
dict of the counterexample. -/
theorem c3_amended_witness :
    (add_device 201 c3BadInput).1 =
      Except.error (DevError.invalidAttribute "bad_one") :=
  (c3_amended_allowlist_reporting 200 200 201 "1" "2"
    [("zap", PyVal.other)] [("zap", PyVal.other)] c3BadInput
    "zap" "zap" "bad_one" "is_public"
    (by decide) (by decide) (by decide) (by decide)
    (by decide) (by decide)).2.2

/- ### C7 -/

/-- C7: when both an id and a name are supplied, the device and site
helpers fetch the record by id and compare its designated name field
with the supplied name, failing with the mismatch ValueError when
they disagree; neither identifier is silently preferred. -/
theorem c7_both_identifiers_checked
    (bd : String → Option Device) (dsnap : List Device)
    (bs : String → Option Site) (ssnap : List Site)
    (i n : String) (d : Device) (s : Site)
    (hd : bd i = some d) (hdn : d.short_name ≠ n)
    (hs : bs i = some s) (hsn : s.label ≠ n) :
    get_device_properties bd dsnap (some i) (some n) =
      Except.error (DevError.identifierMismatch "device") ∧
    get_site_configurations bs ssnap (some i) (some n) =
      Except.error (DevError.identifierMismatch "site") := by
  constructor
  · simp only [get_device_properties, get_device_by_id, hd]
    rw [if_pos hdn]
  · simp only [get_site_configurations, get_site_by_id, hs]
    rw [if_pos hsn]

/-- A one-device backend for the C7 witness. -/
def c7DevBackend : String → Option Device := fun i =>
  if i = "1" then some { id := "1", short_name := "alpha" } else none

/-- A one-site backend for the C7 witness. -/
def c7SiteBackend : String → Option Site := fun i =>
  if i = "1" then some { id := "1", label := "alpha" } else none

/-- Witness for C7: id 1 resolves to name alpha, the caller supplied
beta, both helpers fail with the mismatch error. -/
theorem c7_witness :
    get_device_properties c7DevBackend [] (some "1") (some "beta") =
      Except.error (DevError.identifierMismatch "device") ∧
    get_site_configurations c7SiteBackend [] (some "1") (some "beta") =
      Except.error (DevError.identifierMismatch "site") :=
  c7_both_identifiers_checked c7DevBackend [] c7SiteBackend [] "1" "beta"
    { id := "1", short_name := "alpha" } { id := "1", label := "alpha" }
    (by decide) (by decide) (by decide) (by decide)

/- ### C9 -/

/-- C9: with cached user info the group lookup returns exactly the
sub-list of all permission groups whose id occurs in the membership
list (an order-preserving sub-list, a group belonging to it exactly
when its id is a member), with no warning; with no API key and no
cached info it returns none after emitting the warning, not a
failure. -/
theorem c9_get_user_groups_filters_membership :
    (∀ (k : Option String) (info fetched : UserInfoData)
        (groups : List PermGroup),
      get_user_groups k (some info) fetched groups =
        (some (userGroupList info.member groups), false)) ∧
    (∀ (member : List String) (groups : List PermGroup),
      (userGroupList member groups).Sublist groups ∧
      (∀ g, g ∈ userGroupList member groups ↔
        (g ∈ groups ∧ member.contains g.id = true))) ∧
    (∀ (fetched : UserInfoData) (groups : List PermGroup),
      get_user_groups none none fetched groups = (none, true)) := by
  refine ⟨fun k info fetched groups => rfl, fun member groups => ?_,
    fun fetched groups => rfl⟩
  exact ⟨List.filter_sublist groups, fun g => List.mem_filter⟩
